import Mathlib

/-
Verification of the calling-convention and value-marshalling layer
(the Cython FFI excerpt: make_arg, make_ret, FuncCall, FuncCall3,
ConstructorCall, tvm_callback, convert_to_tvm_func, PackedFuncBase).

The embedding is executable: Python-side values are an inductive type,
the TVMValue union is an inductive whose active member is determined by
the paired type code, and every operation is a computable function
translated branch-for-branch from the source.
-/

set_option autoImplicit false

deriving instance DecidableEq for Except

/-! ## Type codes

Modelled from the spec: the closed type-code enumeration (the numeric
values follow the runtime C enum referenced by the source, which is not
part of the excerpt; the extension range starts at kTVMExtBegin). -/

def kInt : Int := 0
def kFloat : Int := 2
def kTVMOpaqueHandle : Int := 3
def kTVMNullptr : Int := 4
def kTVMDataType : Int := 5
def kDLDevice : Int := 6
def kTVMDLTensorHandle : Int := 7
def kTVMObjectHandle : Int := 8
def kTVMModuleHandle : Int := 9
def kTVMPackedFuncHandle : Int := 10
def kTVMStr : Int := 11
def kTVMBytes : Int := 12
def kTVMNDArrayHandle : Int := 13
def kTVMObjectRefArg : Int := 14
def kTVMArgBool : Int := 15
def kTVMExtBegin : Int := 16

/-! ## The tagged value union -/

/-- Device descriptor: device kind plus device index (DLDevice). -/
structure DLDevice where
  device_type : Int
  device_id : Int
deriving DecidableEq

/-- Content reachable through the pointer-sized v_handle member of the
union.  A pointer is modelled by the data it leads to: a raw address for
plain object/function/module/tensor handles, the contents of a
TVMByteArray descriptor for the byte-array case, and the address of a
chandle field for the rvalue-reference convention. -/
inductive CHandle where
  | null
  | raw (addr : Nat)
  | byteArrayPtr (data : List Nat)
  | addrOfChandle (addr : Nat)
deriving DecidableEq

/-- The TVMValue union.  The type code paired with a value determines
which member is valid; reading any other member is rejected by the
decoder in this embedding (the data-model invariant of the spec). -/
inductive TVMValue where
  | v_int64 (x : Int)
  | v_float64 (bits : Nat)
  | v_handle (h : CHandle)
  | v_str (s : String)
  | v_device (d : DLDevice)
deriving DecidableEq

/-! ## Foreign (Python-side) values -/

/-- Python-side values, one constructor per foreign class the encoder
dispatch chain distinguishes.  Float payloads are carried as their
64-bit pattern; no arithmetic is ever performed on them, the marshalling
layer only copies them.  pyContainer carries whether the container is a
tuple and the chandle of the object produced by the registered
conversion function.  pyMadeArray is the wrapper produced by
c_make_array, pyMadeObject the wrapper produced by make_ret_object. -/
inductive PyVal where
  | pyObjectBase (chandle : Nat)
  | pyNDArrayBase (chandle : Nat) (c_is_view : Bool)
  | pyNativeObject (tvm_object_chandle : Nat)
  | pyCompat (tvm_handle : Nat) (tvm_tcode : Int)
  | pyBool (b : Bool)
  | pyInt (i : Int)
  | pyFloat (bits : Nat)
  | pyStr (s : String)
  | pyNone
  | pyNumber (bits : Nat)
  | pyDataType (s : String)
  | pyDevice (d : DLDevice)
  | pyBytes (data : List Nat)
  | pyByteArray (data : List Nat)
  | pyContainer (is_tuple : Bool) (conv_chandle : Nat)
  | pyModule (handle : Nat)
  | pyPackedFunc (chandle : Nat) (is_global : Int)
  | pyVoidPtr (addr : Nat)
  | pyObjectRValueRef (obj_chandle : Nat)
  | pyCallable (fid : Nat)
  | pyMadeArray (handle : CHandle) (is_view : Bool) (is_container : Bool)
  | pyMadeObject (handle : CHandle)
deriving DecidableEq

/-- Python equality (the == relation) restricted to the value kinds this
layer produces: structural equality, except that a bytes object and a
bytearray with the same contents compare equal, as they do in Python. -/
def pyEq (a b : PyVal) : Bool :=
  if a = b then true
  else
    match a, b with
    | .pyBytes x, .pyByteArray y => decide (x = y)
    | .pyByteArray x, .pyBytes y => decide (x = y)
    | _, _ => false

/-- Temporary keep-alive storage appended to temp_args by make_arg. -/
inductive Temp where
  | tstr (s : String)
  | byteArrCopy (data : List Nat)
  | byteArrayDesc (data : List Nat)
  | convertedObj (chandle : Nat)
  | wrappedFunc (chandle : Nat)
deriving DecidableEq

/-! ## isinstance predicates

One predicate per isinstance test of the make_arg dispatch chain.  A
Python bool is an instance of Integral and of Number, and a Python int
and float are instances of Number, so those predicates overlap; the
chain order in make_arg resolves the overlap exactly as the source does. -/

def isinstance_ObjectBase : PyVal → Bool
  | .pyObjectBase _ => true
  | _ => false

def isinstance_NDArrayBase : PyVal → Bool
  | .pyNDArrayBase _ _ => true
  | _ => false

def isinstance_PyNativeObject : PyVal → Bool
  | .pyNativeObject _ => true
  | _ => false

def isinstance_TVMCompat : PyVal → Bool
  | .pyCompat _ _ => true
  | _ => false

def isinstance_bool : PyVal → Bool
  | .pyBool _ => true
  | _ => false

def isinstance_Integral : PyVal → Bool
  | .pyBool _ => true
  | .pyInt _ => true
  | _ => false

def isinstance_float : PyVal → Bool
  | .pyFloat _ => true
  | _ => false

def isinstance_str : PyVal → Bool
  | .pyStr _ => true
  | _ => false

def is_None : PyVal → Bool
  | .pyNone => true
  | _ => false

def isinstance_Number : PyVal → Bool
  | .pyBool _ => true
  | .pyInt _ => true
  | .pyFloat _ => true
  | .pyNumber _ => true
  | _ => false

def isinstance_DataType : PyVal → Bool
  | .pyDataType _ => true
  | _ => false

def isinstance_Device : PyVal → Bool
  | .pyDevice _ => true
  | _ => false

def isinstance_bytes_or_bytearray : PyVal → Bool
  | .pyBytes _ => true
  | .pyByteArray _ => true
  | _ => false

def isinstance_bytes : PyVal → Bool
  | .pyBytes _ => true
  | _ => false

def isinstance_string_types : PyVal → Bool
  | .pyStr _ => true
  | _ => false

def isinstance_container : PyVal → Bool
  | .pyContainer _ _ => true
  | _ => false

def isinstance_Module : PyVal → Bool
  | .pyModule _ => true
  | _ => false

def isinstance_PackedFuncBase : PyVal → Bool
  | .pyPackedFunc _ _ => true
  | _ => false

def isinstance_c_void_p : PyVal → Bool
  | .pyVoidPtr _ => true
  | _ => false

def isinstance_ObjectRValueRef : PyVal → Bool
  | .pyObjectRValueRef _ => true
  | _ => false

def py_callable : PyVal → Bool
  | .pyCallable _ => true
  | _ => false

def isinstance_tuple : PyVal → Bool
  | .pyContainer true _ => true
  | _ => false

/-! ## Field extractors for the branch bodies -/

def py_chandle : PyVal → Nat
  | .pyObjectBase h => h
  | .pyNDArrayBase h _ => h
  | .pyNativeObject h => h
  | .pyContainer _ h => h
  | .pyModule h => h
  | .pyPackedFunc h _ => h
  | .pyVoidPtr h => h
  | .pyCallable h => h
  | _ => 0

def ndarray_c_is_view : PyVal → Bool
  | .pyNDArrayBase _ v => v
  | _ => false

def compat_handle : PyVal → Nat
  | .pyCompat h _ => h
  | _ => 0

def compat_tcode : PyVal → Int
  | .pyCompat _ t => t
  | _ => 0

def py_int_value : PyVal → Int
  | .pyBool b => if b then 1 else 0
  | .pyInt i => i
  | _ => 0

def py_float_bits : PyVal → Nat
  | .pyFloat b => b
  | .pyNumber b => b
  | _ => 0

def py_str_value : PyVal → String
  | .pyStr s => s
  | .pyDataType s => s
  | _ => ""

def py_device_value : PyVal → DLDevice
  | .pyDevice d => d
  | _ => ⟨0, 0⟩

def py_bytes_data : PyVal → List Nat
  | .pyBytes d => d
  | .pyByteArray d => d
  | _ => []

def rvalue_obj_chandle : PyVal → Nat
  | .pyObjectRValueRef h => h
  | _ => 0

/-- Range test performed by the Cython conversion of a Python int to the
int64_t union member; an out-of-range value raises OverflowError. -/
def int64InRange (i : Int) : Bool :=
  decide (-9223372036854775808 ≤ i) && decide (i < 9223372036854775808)

/-! ## The argument encoder make_arg -/

/-- Translation of make_arg: the ordered isinstance dispatch chain.  The
branch bodies write the union member and type code and append any
keep-alive storage to temp_args, exactly as in the source.  For the
callable branch, the handle created by the native runtime for the
wrapped callable is modelled by reusing the callable identifier. -/
def make_arg (arg : PyVal) : Except String (TVMValue × Int × List Temp) :=
  if isinstance_ObjectBase arg then
    .ok (.v_handle (.raw (py_chandle arg)), kTVMObjectHandle, [])
  else if isinstance_NDArrayBase arg then
    .ok (.v_handle (.raw (py_chandle arg)),
         if ndarray_c_is_view arg = false then kTVMNDArrayHandle else kTVMDLTensorHandle, [])
  else if isinstance_PyNativeObject arg then
    .ok (.v_handle (.raw (py_chandle arg)), kTVMObjectHandle, [])
  else if isinstance_TVMCompat arg then
    .ok (.v_handle (.raw (compat_handle arg)), compat_tcode arg, [])
  else if isinstance_bool arg then
    .ok (.v_int64 (py_int_value arg), kTVMArgBool, [])
  else if isinstance_Integral arg then
    if int64InRange (py_int_value arg) then
      .ok (.v_int64 (py_int_value arg), kInt, [])
    else
      .error "OverflowError"
  else if isinstance_float arg then
    .ok (.v_float64 (py_float_bits arg), kFloat, [])
  else if isinstance_str arg then
    .ok (.v_str (py_str_value arg), kTVMStr, [.tstr (py_str_value arg)])
  else if is_None arg then
    .ok (.v_handle .null, kTVMNullptr, [])
  else if isinstance_Number arg then
    .ok (.v_float64 (py_float_bits arg), kFloat, [])
  else if isinstance_DataType arg then
    .ok (.v_str (py_str_value arg), kTVMStr, [.tstr (py_str_value arg)])
  else if isinstance_Device arg then
    .ok (.v_device (py_device_value arg), kDLDevice, [])
  else if isinstance_bytes_or_bytearray arg then
    if isinstance_bytes arg then
      .ok (.v_handle (.byteArrayPtr (py_bytes_data arg)), kTVMBytes,
           [.byteArrCopy (py_bytes_data arg), .byteArrayDesc (py_bytes_data arg)])
    else
      .ok (.v_handle (.byteArrayPtr (py_bytes_data arg)), kTVMBytes,
           [.byteArrayDesc (py_bytes_data arg)])
  else if isinstance_string_types arg then
    .ok (.v_str (py_str_value arg), kTVMStr, [.tstr (py_str_value arg)])
  else if isinstance_container arg then
    .ok (.v_handle (.raw (py_chandle arg)), kTVMObjectHandle, [.convertedObj (py_chandle arg)])
  else if isinstance_Module arg then
    .ok (.v_handle (.raw (py_chandle arg)), kTVMModuleHandle, [])
  else if isinstance_PackedFuncBase arg then
    .ok (.v_handle (.raw (py_chandle arg)), kTVMPackedFuncHandle, [])
  else if isinstance_c_void_p arg then
    .ok (.v_handle (.raw (py_chandle arg)), kTVMOpaqueHandle, [])
  else if isinstance_ObjectRValueRef arg then
    .ok (.v_handle (.addrOfChandle (rvalue_obj_chandle arg)), kTVMObjectRefArg, [])
  else if py_callable arg then
    .ok (.v_handle (.raw (py_chandle arg)), kTVMPackedFuncHandle, [.wrappedFunc (py_chandle arg)])
  else
    .error "TypeError"

/-! ## The result decoder make_ret -/

/-- Modelled from the spec: c_make_array constructs the foreign-side
array wrapper from a tensor handle (its body lives outside the excerpt);
the first flag selects a borrowed non-owning view, the second an owning
container wrapper. -/
def c_make_array (h : CHandle) (is_view : Bool) (is_container : Bool) : PyVal :=
  .pyMadeArray h is_view is_container

/-- Modelled from the spec: registry of per-extension-code result
decoders, populated externally; nothing in the excerpt registers one, so
the lookup is everywhere empty. -/
def TVM_EXT_RET : Int → Option (CHandle → PyVal) :=
  fun _ => none

/-- Translation of make_ret: dispatch purely on the type code; each
branch reads the union member that the code declares valid (reading any
other member is the invalid-union error, which never arises on values
the encoder produced). -/
def make_ret (value : TVMValue) (tcode : Int) : Except String PyVal :=
  if tcode = kTVMObjectHandle then
    match value with
    | .v_handle h => .ok (.pyMadeObject h)
    | _ => .error "invalid union read"
  else if tcode = kTVMNullptr then
    .ok .pyNone
  else if tcode = kTVMArgBool then
    match value with
    | .v_int64 x => .ok (.pyBool (decide (x ≠ 0)))
    | _ => .error "invalid union read"
  else if tcode = kInt then
    match value with
    | .v_int64 x => .ok (.pyInt x)
    | _ => .error "invalid union read"
  else if tcode = kFloat then
    match value with
    | .v_float64 b => .ok (.pyFloat b)
    | _ => .error "invalid union read"
  else if tcode = kTVMNDArrayHandle then
    match value with
    | .v_handle h => .ok (c_make_array h false true)
    | _ => .error "invalid union read"
  else if tcode = kTVMStr then
    match value with
    | .v_str s => .ok (.pyStr s)
    | _ => .error "invalid union read"
  else if tcode = kTVMBytes then
    match value with
    | .v_handle (.byteArrayPtr data) => .ok (.pyByteArray data)
    | _ => .error "invalid union read"
  else if tcode = kTVMOpaqueHandle then
    match value with
    | .v_handle (.raw a) => .ok (.pyVoidPtr a)
    | .v_handle .null => .ok (.pyVoidPtr 0)
    | _ => .error "invalid union read"
  else if tcode = kDLDevice then
    match value with
    | .v_device d => .ok (.pyDevice ⟨d.device_type, d.device_id⟩)
    | _ => .error "invalid union read"
  else if tcode = kTVMModuleHandle then
    match value with
    | .v_handle (.raw a) => .ok (.pyModule a)
    | .v_handle .null => .ok (.pyModule 0)
    | _ => .error "invalid union read"
  else if tcode = kTVMPackedFuncHandle then
    match value with
    | .v_handle (.raw a) => .ok (.pyPackedFunc a 0)
    | .v_handle .null => .ok (.pyPackedFunc 0 0)
    | _ => .error "invalid union read"
  else
    match TVM_EXT_RET tcode with
    | some dec =>
      match value with
      | .v_handle h => .ok (dec h)
      | _ => .error "invalid union read"
    | none => .error "Unhandled type code"

/-- The value kinds named by the round-trip property: Int, Float, Bool,
Null, Str, Bytes (bytes and bytearray), Device. -/
def isRoundTripKind : PyVal → Bool
  | .pyInt _ => true
  | .pyFloat _ => true
  | .pyBool _ => true
  | .pyNone => true
  | .pyStr _ => true
  | .pyBytes _ => true
  | .pyByteArray _ => true
  | .pyDevice _ => true
  | _ => false

/-! ## Call invokers FuncCall3 and FuncCall -/

/-- The native invocation primitive TVMFuncCall, kept abstract: it
receives the function handle, a pointer to the value array, a pointer to
the type-code array and the argument count, and yields a status code
plus the tagged return value.  The pointer-plus-count pair is modelled
by passing exactly the count-long readable front segment of each array. -/
def NativeCall : Type :=
  Nat → List TVMValue → List Int → Nat → Int × TVMValue × Int

/-- Encoding loop shared by both invoker paths: make_arg on each
argument in order, collecting values, type codes and keep-alive
storage; the first failing argument aborts the whole encoding. -/
def encodeArgsLoop : List PyVal → Except String (List (TVMValue × Int) × List Temp)
  | [] => .ok ([], [])
  | a :: rest => do
    let (v, t, temps) ← make_arg a
    let (enc, temps2) ← encodeArgsLoop rest
    pure ((v, t) :: enc, temps ++ temps2)

/-- Translation of FuncCall3: the fixed-size fast path.  The two stack
arrays have exactly 3 slots; unwritten slots keep an arbitrary default
that the native primitive never reads, since it receives the argument
count and reads only that many slots (modelled by the take nargs). -/
def FuncCall3 (native : NativeCall) (chandle : Nat) (args : List PyVal) :
    Except String (TVMValue × Int) := do
  let nargs := args.length
  let (enc, _temp_args) ← encodeArgsLoop args
  let values : List TVMValue :=
    ((enc.map Prod.fst) ++ List.replicate (3 - nargs) (TVMValue.v_int64 0)).take 3
  let tcodes : List Int :=
    ((enc.map Prod.snd) ++ List.replicate (3 - nargs) 0).take 3
  let (st, rv, rt) := native chandle (values.take nargs) (tcodes.take nargs) nargs
  if st = 0 then pure (rv, rt) else throw "TVMError"

/-- The general path inlined in the body of FuncCall for more than 3
arguments, factored out here so the path can be named: two vectors
resized to max(nargs, 1) slots. -/
def FuncCallGeneral (native : NativeCall) (chandle : Nat) (args : List PyVal) :
    Except String (TVMValue × Int) := do
  let nargs := args.length
  let (enc, _temp_args) ← encodeArgsLoop args
  let values : List TVMValue :=
    ((enc.map Prod.fst) ++ List.replicate (max nargs 1 - nargs) (TVMValue.v_int64 0)).take (max nargs 1)
  let tcodes : List Int :=
    ((enc.map Prod.snd) ++ List.replicate (max nargs 1 - nargs) 0).take (max nargs 1)
  let (st, rv, rt) := native chandle (values.take nargs) (tcodes.take nargs) nargs
  if st = 0 then pure (rv, rt) else throw "TVMError"

/-- Translation of FuncCall: at most 3 arguments go through the
fixed-size FuncCall3 path, otherwise the dynamically sized path runs. -/
def FuncCall (native : NativeCall) (chandle : Nat) (args : List PyVal) :
    Except String (TVMValue × Int) :=
  if args.length ≤ 3 then FuncCall3 native chandle args
  else FuncCallGeneral native chandle args

/-- Single-path specification both invoker paths refine: encode every
argument, hand the encoded arrays and the count to the native
primitive, surface a nonzero status as a raised failure. -/
def invokeSpec (native : NativeCall) (chandle : Nat) (args : List PyVal) :
    Except String (TVMValue × Int) := do
  let (enc, _temp_args) ← encodeArgsLoop args
  let (st, rv, rt) := native chandle (enc.map Prod.fst) (enc.map Prod.snd) args.length
  if st = 0 then pure (rv, rt) else throw "TVMError"

/-! ## Constructor invoker -/

/-- Translation of ConstructorCall: run FuncCall, assert the returned
type code equals the expected one (a bare assert statement, whose
failure raises AssertionError), then adopt the raw v_handle member. -/
def ConstructorCall (native : NativeCall) (constructor_handle : Nat) (type_code : Int)
    (args : List PyVal) : Except String CHandle := do
  let (ret_val, ret_tcode) ← FuncCall native constructor_handle args
  if ret_tcode ≠ type_code then
    throw "AssertionError"
  else
    match ret_val with
    | .v_handle h => pure h
    | _ => throw "invalid union read"

/-! ## Callback trampoline tvm_callback -/

/-- The in-place translate-argument-to-return primitive TVMCbArgToReturn,
kept abstract: it may replace the value and the type code (a shallow
copy when necessary). -/
def CbArgToReturn : Type :=
  TVMValue → Int → TVMValue × Int

/-- A foreign callable: receives the decoded arguments and either
raises (error carries the diagnostic) or produces a value, with pyNone
standing for a callable that returns nothing. -/
def PyFunc : Type :=
  List PyVal → Except String PyVal

/-- Condition of the source under which an incoming trampoline argument
is passed through TVMCbArgToReturn before decoding. -/
def cb_translate_cond (tcode : Int) : Bool :=
  decide (tcode = kTVMObjectHandle) || decide (tcode = kTVMPackedFuncHandle) ||
  decide (tcode = kTVMModuleHandle) || decide (tcode = kTVMNDArrayHandle) ||
  decide (tcode = kTVMObjectRefArg) || decide (kTVMExtBegin ≤ tcode)

/-- Decoding step applied to a trampoline argument after the optional
translate step: a tensor-view handle becomes a borrowed view through
c_make_array, everything else goes through make_ret. -/
def cb_decode_after (value : TVMValue) (tcode : Int) : Except String PyVal :=
  if tcode ≠ kTVMDLTensorHandle then
    make_ret value tcode
  else
    match value with
    | .v_handle h => .ok (c_make_array h true false)
    | _ => .error "invalid union read"

/-- Per-argument processing of the trampoline loop: translate in place
when the type code is a mutable-content handle kind, then decode. -/
def cb_decode_arg (cb : CbArgToReturn) (value : TVMValue) (tcode : Int) :
    Except String PyVal :=
  if cb_translate_cond tcode then
    let (value2, tcode2) := cb value tcode
    cb_decode_after value2 tcode2
  else
    cb_decode_after value tcode

/-- Observable outcome of one trampoline invocation: the returned
status, the return slot written through TVMCFuncSetReturn (none when
the primitive was never called), and the thread-visible last-error slot
written through TVMAPISetLastPythonError. -/
structure CbResult where
  status : Int
  ret_slot : Option (TVMValue × Int)
  err_slot : Option String
deriving DecidableEq

/-- Translation of tvm_callback: decode every incoming argument (with
the translate step where required), invoke the foreign callable under
the runtime lock; a raise is caught, stored in the last-error slot and
turned into status -1 with no return value; a tuple result raises the
single-return-value error (outside the try block, so it escapes); any
other non-None result is encoded with make_arg and stored through the
set-return primitive with status 0. -/
def tvm_callback (cb : CbArgToReturn) (f : PyFunc) (args : List (TVMValue × Int)) :
    Except String CbResult := do
  let pyargs ← args.mapM (fun a => cb_decode_arg cb a.1 a.2)
  match f pyargs with
  | .error err =>
    pure { status := -1, ret_slot := none, err_slot := some err }
  | .ok rv =>
    if rv ≠ .pyNone then
      if isinstance_tuple rv then
        throw "PackedFunction can only support one return value"
      else do
        let (value, tcode, _temp_args) ← make_arg rv
        pure { status := 0, ret_slot := some (value, tcode), err_slot := none }
    else
      pure { status := 0, ret_slot := none, err_slot := none }

/-- Modelled from the spec: the native call site of the trampoline
(TVMThrowLastError, quoted only in a source comment) observes the
returned status and, when it is nonzero, re-raises using the deferred
diagnostic stored in the last-error slot. -/
def native_reraise (r : CbResult) : Except String Unit :=
  if r.status ≠ 0 then .error (r.err_slot.getD "TVMError") else .ok ()

/-! ## Wrapper lifetime: convert_to_tvm_func, finalizer, dealloc -/

/-- Reference-count and handle events emitted by the lifetime model. -/
inductive Event where
  | py_incref (f : Nat)
  | py_decref (f : Nat)
  | func_create (chandle : Nat) (resource : Nat)
  | func_free (chandle : Nat)
deriving DecidableEq

/-- Translation of the PackedFuncBase wrapper state: the raw handle and
the global flag (0 for a local handle owned by the wrapper). -/
structure PackedFuncBase where
  chandle : Nat
  is_global : Int
deriving DecidableEq

/-- Translation of make_packed_func: wrap a raw handle. -/
def make_packed_func (chandle : Nat) (is_global : Int) : PackedFuncBase :=
  { chandle := chandle, is_global := is_global }

/-- Translation of tvm_callback_finalize: the finalizer registered with
the native runtime releases exactly one reference on the stored
callable when the native side frees the handle. -/
def tvm_callback_finalize (fhandle : Nat) : List Event :=
  [.py_decref fhandle]

/-- Translation of convert_to_tvm_func: take one reference on the
Python callable, create the native handle registering tvm_callback and
tvm_callback_finalize with the callable as the resource handle, and
wrap the resulting handle as a local (non-global) PackedFuncBase.  The
handle that TVMFuncCreateFromCFunc writes back is a parameter. -/
def convert_to_tvm_func (pyfunc : Nat) (new_chandle : Nat) :
    List Event × PackedFuncBase :=
  ([.py_incref pyfunc, .func_create new_chandle pyfunc],
   make_packed_func new_chandle 0)

/-- Modelled from the spec: when the native side frees the created
function handle, it invokes the registered finalizer exactly once on
the stored resource handle. -/
def native_free_created (resource : Nat) : List Event :=
  tvm_callback_finalize resource

/-- Translation of PackedFuncBase dealloc: the free primitive runs
exactly when the handle is local (is_global equals 0). -/
def PackedFuncBase_dealloc (self : PackedFuncBase) : List Event :=
  if self.is_global = 0 then [.func_free self.chandle] else []

/-! ## String containment, used to state what an error message names -/

/-- Character-list test: the first list is an initial segment of the
second. -/
def startsWithChars : List Char → List Char → Bool
  | [], _ => true
  | _ :: _, [] => false
  | a :: as, b :: bs => a == b && startsWithChars as bs

/-- Character-list test: the first list occurs contiguously somewhere
inside the second. -/
def occursInChars (p : List Char) : List Char → Bool
  | [] => startsWithChars p []
  | c :: rest => startsWithChars p (c :: rest) || occursInChars p rest

/-- String test: the first string occurs inside the second. -/
def occursInStr (p s : String) : Bool :=
  occursInChars p.data s.data

example : make_arg (.pyBool true) = .ok (.v_int64 1, kTVMArgBool, []) := by decide
example : make_arg (.pyInt 5) = .ok (.v_int64 5, kInt, []) := by decide
example : make_ret (.v_int64 1) kTVMArgBool = .ok (.pyBool true) := by decide
example : make_ret (.v_int64 5) kInt = .ok (.pyInt 5) := by decide
example : pyEq (.pyByteArray [1, 2]) (.pyBytes [1, 2]) = true := by decide

attribute [simp] isinstance_ObjectBase isinstance_NDArrayBase isinstance_PyNativeObject
attribute [simp] isinstance_TVMCompat isinstance_bool isinstance_Integral isinstance_float
attribute [simp] isinstance_str is_None isinstance_Number isinstance_DataType isinstance_Device
attribute [simp] isinstance_bytes_or_bytearray isinstance_bytes isinstance_string_types
attribute [simp] isinstance_container isinstance_Module isinstance_PackedFuncBase
attribute [simp] isinstance_c_void_p isinstance_ObjectRValueRef py_callable
attribute [simp] py_chandle ndarray_c_is_view compat_handle compat_tcode py_int_value
attribute [simp] py_float_bits py_str_value py_device_value py_bytes_data rvalue_obj_chandle
attribute [simp] c_make_array TVM_EXT_RET

/-! ## Monad reduction lemmas for Except -/

@[simp] theorem except_bind_ok {ε : Type} {α β : Type} (a : α) (f : α → Except ε β) :
    (Except.ok a : Except ε α) >>= f = f a := rfl

@[simp] theorem except_bind_error {ε : Type} {α β : Type} (e : ε) (f : α → Except ε β) :
    (Except.error e : Except ε α) >>= f = Except.error e := rfl

@[simp] theorem except_pure_eq_ok {ε : Type} {α : Type} (a : α) :
    (pure a : Except ε α) = Except.ok a := rfl

@[simp] theorem except_throw_eq_error {ε : Type} {α : Type} (e : ε) :
    (throw e : Except ε α) = Except.error e := rfl

/-! ## Branch equations of the encoder and decoder -/

@[simp] theorem make_arg_pyObjectBase (h : Nat) :
    make_arg (.pyObjectBase h) = .ok (.v_handle (.raw h), kTVMObjectHandle, []) := rfl

@[simp] theorem make_arg_pyNDArrayBase (h : Nat) (view : Bool) :
    make_arg (.pyNDArrayBase h view) =
      .ok (.v_handle (.raw h),
           if view = false then kTVMNDArrayHandle else kTVMDLTensorHandle, []) := rfl

@[simp] theorem make_arg_pyNativeObject (h : Nat) :
    make_arg (.pyNativeObject h) = .ok (.v_handle (.raw h), kTVMObjectHandle, []) := rfl

@[simp] theorem make_arg_pyCompat (h : Nat) (t : Int) :
    make_arg (.pyCompat h t) = .ok (.v_handle (.raw h), t, []) := rfl

@[simp] theorem make_arg_pyBool (b : Bool) :
    make_arg (.pyBool b) = .ok (.v_int64 (if b then 1 else 0), kTVMArgBool, []) := rfl

@[simp] theorem make_arg_pyInt (i : Int) :
    make_arg (.pyInt i) =
      if int64InRange i then .ok (.v_int64 i, kInt, []) else .error "OverflowError" := rfl

@[simp] theorem make_arg_pyFloat (b : Nat) :
    make_arg (.pyFloat b) = .ok (.v_float64 b, kFloat, []) := rfl

@[simp] theorem make_arg_pyStr (s : String) :
    make_arg (.pyStr s) = .ok (.v_str s, kTVMStr, [.tstr s]) := rfl

@[simp] theorem make_arg_pyNone :
    make_arg .pyNone = .ok (.v_handle .null, kTVMNullptr, []) := rfl

@[simp] theorem make_arg_pyNumber (b : Nat) :
    make_arg (.pyNumber b) = .ok (.v_float64 b, kFloat, []) := rfl

@[simp] theorem make_arg_pyDataType (s : String) :
    make_arg (.pyDataType s) = .ok (.v_str s, kTVMStr, [.tstr s]) := rfl

@[simp] theorem make_arg_pyDevice (d : DLDevice) :
    make_arg (.pyDevice d) = .ok (.v_device d, kDLDevice, []) := rfl

@[simp] theorem make_arg_pyBytes (data : List Nat) :
    make_arg (.pyBytes data) =
      .ok (.v_handle (.byteArrayPtr data), kTVMBytes,
           [.byteArrCopy data, .byteArrayDesc data]) := rfl

@[simp] theorem make_arg_pyByteArray (data : List Nat) :
    make_arg (.pyByteArray data) =
      .ok (.v_handle (.byteArrayPtr data), kTVMBytes, [.byteArrayDesc data]) := rfl

@[simp] theorem make_arg_pyContainer (t : Bool) (h : Nat) :
    make_arg (.pyContainer t h) =
      .ok (.v_handle (.raw h), kTVMObjectHandle, [.convertedObj h]) := rfl

@[simp] theorem make_arg_pyModule (h : Nat) :
    make_arg (.pyModule h) = .ok (.v_handle (.raw h), kTVMModuleHandle, []) := rfl

@[simp] theorem make_arg_pyPackedFunc (h : Nat) (g : Int) :
    make_arg (.pyPackedFunc h g) = .ok (.v_handle (.raw h), kTVMPackedFuncHandle, []) := rfl

@[simp] theorem make_arg_pyVoidPtr (h : Nat) :
    make_arg (.pyVoidPtr h) = .ok (.v_handle (.raw h), kTVMOpaqueHandle, []) := rfl

@[simp] theorem make_arg_pyObjectRValueRef (h : Nat) :
    make_arg (.pyObjectRValueRef h) =
      .ok (.v_handle (.addrOfChandle h), kTVMObjectRefArg, []) := rfl

@[simp] theorem make_arg_pyCallable (h : Nat) :
    make_arg (.pyCallable h) =
      .ok (.v_handle (.raw h), kTVMPackedFuncHandle, [.wrappedFunc h]) := rfl

@[simp] theorem make_ret_object (h : CHandle) :
    make_ret (.v_handle h) kTVMObjectHandle = .ok (.pyMadeObject h) := rfl

@[simp] theorem make_ret_null (value : TVMValue) :
    make_ret value kTVMNullptr = .ok .pyNone := rfl

@[simp] theorem make_ret_bool (x : Int) :
    make_ret (.v_int64 x) kTVMArgBool = .ok (.pyBool (decide (x ≠ 0))) := rfl

@[simp] theorem make_ret_int (x : Int) :
    make_ret (.v_int64 x) kInt = .ok (.pyInt x) := rfl

@[simp] theorem make_ret_float (b : Nat) :
    make_ret (.v_float64 b) kFloat = .ok (.pyFloat b) := rfl

@[simp] theorem make_ret_ndarray (h : CHandle) :
    make_ret (.v_handle h) kTVMNDArrayHandle = .ok (.pyMadeArray h false true) := rfl

@[simp] theorem make_ret_str (s : String) :
    make_ret (.v_str s) kTVMStr = .ok (.pyStr s) := rfl

@[simp] theorem make_ret_bytes (data : List Nat) :
    make_ret (.v_handle (.byteArrayPtr data)) kTVMBytes = .ok (.pyByteArray data) := rfl

@[simp] theorem make_ret_device (d : DLDevice) :
    make_ret (.v_device d) kDLDevice = .ok (.pyDevice d) := rfl

@[simp] theorem make_ret_bool_float (b : Nat) :
    make_ret (.v_float64 b) kTVMArgBool = .error "invalid union read" := rfl

@[simp] theorem make_ret_bool_handle (h : CHandle) :
    make_ret (.v_handle h) kTVMArgBool = .error "invalid union read" := rfl

@[simp] theorem make_ret_bool_str (s : String) :
    make_ret (.v_str s) kTVMArgBool = .error "invalid union read" := rfl

@[simp] theorem make_ret_bool_device (d : DLDevice) :
    make_ret (.v_device d) kTVMArgBool = .error "invalid union read" := rfl

/-- Encoding a list preserves its length. -/
theorem encodeArgsLoop_length (args : List PyVal) (enc : List (TVMValue × Int))
    (temps : List Temp) (h : encodeArgsLoop args = .ok (enc, temps)) :
    enc.length = args.length := by
  induction args generalizing enc temps with
  | nil =>
    simp [encodeArgsLoop] at h
    simp [h.1]
  | cons a rest ih =>
    simp only [encodeArgsLoop] at h
    cases hma : make_arg a with
    | error e => simp [hma] at h
    | ok vt =>
      simp only [hma, except_bind_ok] at h
      cases hrest : encodeArgsLoop rest with
      | error e => simp [hrest] at h
      | ok et =>
        obtain ⟨enc2, temps2⟩ := et
        simp only [hrest, except_bind_ok, except_pure_eq_ok, Except.ok.injEq,
          Prod.mk.injEq] at h
        obtain ⟨h1, _h2⟩ := h
        subst h1
        simp [ih enc2 temps2 hrest]

/-! ## Claim theorems -/

/-- C1: for every non-handle value of kind Int, Float, Bool, Null, Str,
Bytes (bytes or bytearray) or Device, decoding the tagged value that the
encoder produced for it (make_ret applied to the TVMValue and type code
written by make_arg) yields a value equal, in the Python sense, to the
original value. -/
theorem c1_roundtrip_nonhandle (v : PyVal) (val : TVMValue) (tc : Int) (temps : List Temp)
    (hk : isRoundTripKind v = true)
    (he : make_arg v = .ok (val, tc, temps)) :
    ∃ r, make_ret val tc = .ok r ∧ pyEq r v = true := by
  cases v
  case pyInt i =>
    rw [make_arg_pyInt] at he
    split at he
    · simp only [Except.ok.injEq, Prod.mk.injEq] at he
      obtain ⟨rfl, rfl, rfl⟩ := he
      exact ⟨.pyInt i, by simp, by simp [pyEq]⟩
    · simp at he
  case pyFloat bits =>
    simp only [make_arg_pyFloat, Except.ok.injEq, Prod.mk.injEq] at he
    obtain ⟨rfl, rfl, rfl⟩ := he
    exact ⟨.pyFloat bits, by simp, by simp [pyEq]⟩
  case pyBool b =>
    simp only [make_arg_pyBool, Except.ok.injEq, Prod.mk.injEq] at he
    obtain ⟨rfl, rfl, rfl⟩ := he
    exact ⟨.pyBool b, by cases b <;> simp, by simp [pyEq]⟩
  case pyNone =>
    simp only [make_arg_pyNone, Except.ok.injEq, Prod.mk.injEq] at he
    obtain ⟨rfl, rfl, rfl⟩ := he
    exact ⟨.pyNone, by simp, by simp [pyEq]⟩
  case pyStr s =>
    simp only [make_arg_pyStr, Except.ok.injEq, Prod.mk.injEq] at he
    obtain ⟨rfl, rfl, rfl⟩ := he
    exact ⟨.pyStr s, by simp, by simp [pyEq]⟩
  case pyBytes data =>
    simp only [make_arg_pyBytes, Except.ok.injEq, Prod.mk.injEq] at he
    obtain ⟨rfl, rfl, rfl⟩ := he
    exact ⟨.pyByteArray data, by simp, by simp [pyEq]⟩
  case pyByteArray data =>
    simp only [make_arg_pyByteArray, Except.ok.injEq, Prod.mk.injEq] at he
    obtain ⟨rfl, rfl, rfl⟩ := he
    exact ⟨.pyByteArray data, by simp, by simp [pyEq]⟩
  case pyDevice d =>
    simp only [make_arg_pyDevice, Except.ok.injEq, Prod.mk.injEq] at he
    obtain ⟨rfl, rfl, rfl⟩ := he
    exact ⟨.pyDevice d, by simp, by simp [pyEq]⟩
  all_goals simp [isRoundTripKind] at hk

/-- C1 witness: the round trip evaluated on the concrete integer 5. -/
theorem c1_roundtrip_nonhandle_witness :
    ∃ r, make_ret (.v_int64 5) kInt = .ok r ∧ pyEq r (.pyInt 5) = true :=
  c1_roundtrip_nonhandle (.pyInt 5) (.v_int64 5) kInt [] (by decide) (by decide)

/-- C2: the encoder classifies boolean values before general integral
values: a Python bool receives type code kTVMArgBool (never kInt) even
though it is an instance of Integral, a non-bool integral receives kInt,
and a kTVMArgBool-tagged value always decodes to a bool, never to a
plain integer. -/
theorem c2_bool_before_integral (b : Bool) (i : Int) (val : TVMValue) (r : PyVal) :
    (make_arg (.pyBool b) = .ok (.v_int64 (if b then 1 else 0), kTVMArgBool, []) ∧
     isinstance_Integral (.pyBool b) = true ∧ kTVMArgBool ≠ kInt) ∧
    (isinstance_bool (.pyInt i) = false ∧
     (int64InRange i = true → make_arg (.pyInt i) = .ok (.v_int64 i, kInt, []))) ∧
    (make_ret val kTVMArgBool = .ok r → ∃ bb, r = .pyBool bb) := by
  refine ⟨⟨rfl, by simp, by decide⟩, ⟨by simp, fun h => by simp [h]⟩, ?_⟩
  intro hret
  cases val <;> simp at hret
  exact ⟨_, hret.symm⟩

/-- C2 witness: the classification evaluated at true and 5. -/
theorem c2_bool_before_integral_witness :
    make_arg (.pyBool true) = .ok (.v_int64 1, kTVMArgBool, []) ∧
    make_arg (.pyInt 5) = .ok (.v_int64 5, kInt, []) ∧
    (∃ bb, (.pyBool true : PyVal) = .pyBool bb) := by
  have h := c2_bool_before_integral true 5 (.v_int64 1) (.pyBool true)
  exact ⟨h.1.1, h.2.1.2 (by decide), h.2.2 (by decide)⟩

/-- C10: every integral argument is stored in the signed 64-bit integer
union member; an integral value outside the signed 64-bit range makes
the encoder raise OverflowError, and a call carrying such an argument
fails with that error without the native primitive being consulted (the
outcome is the same for every native primitive), rather than wrapping
modulo two to the 64. -/
theorem c10_int64_encoding (i : Int) (b : Bool) :
    (int64InRange i = true → make_arg (.pyInt i) = .ok (.v_int64 i, kInt, [])) ∧
    make_arg (.pyBool b) = .ok (.v_int64 (if b then 1 else 0), kTVMArgBool, []) ∧
    (int64InRange i = false →
      make_arg (.pyInt i) = .error "OverflowError" ∧
      ∀ (native native2 : NativeCall) (ch : Nat),
        FuncCall native ch [.pyInt i] = .error "OverflowError" ∧
        FuncCall native ch [.pyInt i] = FuncCall native2 ch [.pyInt i]) := by
  refine ⟨fun h => by simp [h], rfl, fun h => ⟨by simp [h], ?_⟩⟩
  intro native native2 ch
  have hm : make_arg (.pyInt i) = .error "OverflowError" := by simp [h]
  constructor
  · simp [FuncCall, FuncCall3, encodeArgsLoop, hm]
  · simp [FuncCall, FuncCall3, encodeArgsLoop, hm]

/-- Taking exactly the length of the left part of an append yields the
left part. -/
theorem take_length_append_left {α : Type} (xs ys : List α) :
    (xs ++ ys).take xs.length = xs := by
  induction xs with
  | nil => simp
  | cons a t ih => simp [ih]

/-- The fixed-size path agrees with the single-path specification for
at most three arguments (starting from four it would truncate, which is
why the source guards it behind the argument-count test). -/
theorem FuncCall3_eq_spec (native : NativeCall) (ch : Nat) (args : List PyVal)
    (hlen : args.length ≤ 3) :
    FuncCall3 native ch args = invokeSpec native ch args := by
  unfold FuncCall3 invokeSpec
  cases henc : encodeArgsLoop args with
  | error e => simp [henc]
  | ok et =>
    obtain ⟨enc, temps⟩ := et
    have hl : enc.length = args.length := encodeArgsLoop_length args enc temps henc
    have hv : ((enc.map Prod.fst ++
        List.replicate (3 - args.length) (TVMValue.v_int64 0)).take 3).take args.length =
          enc.map Prod.fst := by
      rw [List.take_take, Nat.min_eq_left hlen, ← hl, ← List.length_map enc Prod.fst,
        take_length_append_left]
    have ht : ((enc.map Prod.snd ++
        List.replicate (3 - args.length) (0 : Int)).take 3).take args.length =
          enc.map Prod.snd := by
      rw [List.take_take, Nat.min_eq_left hlen, ← hl, ← List.length_map enc Prod.snd,
        take_length_append_left]
    simp only [henc, except_bind_ok, hv, ht]

/-- The general path agrees with the single-path specification for
every argument count. -/
theorem FuncCallGeneral_eq_spec (native : NativeCall) (ch : Nat) (args : List PyVal) :
    FuncCallGeneral native ch args = invokeSpec native ch args := by
  unfold FuncCallGeneral invokeSpec
  cases henc : encodeArgsLoop args with
  | error e => simp [henc]
  | ok et =>
    obtain ⟨enc, temps⟩ := et
    have hl : enc.length = args.length := encodeArgsLoop_length args enc temps henc
    have hmin : min args.length (max args.length 1) = args.length :=
      Nat.min_eq_left (Nat.le_max_left _ _)
    have hv : ((enc.map Prod.fst ++
        List.replicate (max args.length 1 - args.length)
          (TVMValue.v_int64 0)).take (max args.length 1)).take args.length =
          enc.map Prod.fst := by
      rw [List.take_take, hmin, ← hl, ← List.length_map enc Prod.fst, take_length_append_left]
    have ht : ((enc.map Prod.snd ++
        List.replicate (max args.length 1 - args.length)
          (0 : Int)).take (max args.length 1)).take args.length =
          enc.map Prod.snd := by
      rw [List.take_take, hmin, ← hl, ← List.length_map enc Prod.snd, take_length_append_left]
    simp only [henc, except_bind_ok, hv, ht]

/-- C3: a call with at most 3 arguments runs through the fixed-size
3-slot path FuncCall3 and a call with 4 or more arguments runs through
the dynamically sized path; both paths encode every argument with the
same encoder and hand the same encoded values, type codes and argument
count to the same native primitive, so all paths produce the result of
the single-path specification invokeSpec. -/
theorem c3_fast_and_general_paths (native : NativeCall) (ch : Nat) (args : List PyVal) :
    (args.length ≤ 3 → FuncCall native ch args = FuncCall3 native ch args) ∧
    (3 < args.length → FuncCall native ch args = FuncCallGeneral native ch args) ∧
    (args.length ≤ 3 → FuncCall3 native ch args = invokeSpec native ch args) ∧
    FuncCallGeneral native ch args = invokeSpec native ch args ∧
    FuncCall native ch args = invokeSpec native ch args := by
  refine ⟨fun h => by simp [FuncCall, h], fun h => by simp [FuncCall, Nat.not_le.2 h],
    fun h => FuncCall3_eq_spec native ch args h, FuncCallGeneral_eq_spec native ch args, ?_⟩
  by_cases h : args.length ≤ 3
  · simp only [FuncCall, if_pos h]
    exact FuncCall3_eq_spec native ch args h
  · simp only [FuncCall, if_neg h]
    exact FuncCallGeneral_eq_spec native ch args

/-- C3 witness: a one-argument call goes through the fixed path and a
five-argument call through the general path, both agreeing with the
specification. -/
theorem c3_fast_and_general_paths_witness :
    FuncCall (fun _ _ _ _ => (0, .v_int64 7, 0)) 0 [.pyInt 1] =
      FuncCall3 (fun _ _ _ _ => (0, .v_int64 7, 0)) 0 [.pyInt 1] ∧
    FuncCall3 (fun _ _ _ _ => (0, .v_int64 7, 0)) 0 [.pyInt 1] =
      invokeSpec (fun _ _ _ _ => (0, .v_int64 7, 0)) 0 [.pyInt 1] ∧
    FuncCall (fun _ _ _ _ => (0, .v_int64 7, 0)) 0
        [.pyInt 1, .pyInt 2, .pyInt 3, .pyInt 4, .pyInt 5] =
      FuncCallGeneral (fun _ _ _ _ => (0, .v_int64 7, 0)) 0
        [.pyInt 1, .pyInt 2, .pyInt 3, .pyInt 4, .pyInt 5] := by
  have h1 := c3_fast_and_general_paths (fun _ _ _ _ => (0, .v_int64 7, 0)) 0 [.pyInt 1]
  have h5 := c3_fast_and_general_paths (fun _ _ _ _ => (0, .v_int64 7, 0)) 0
    [.pyInt 1, .pyInt 2, .pyInt 3, .pyInt 4, .pyInt 5]
  exact ⟨h1.1 (by decide), h1.2.2.1 (by decide), h5.2.1 (by decide)⟩

/-- C5: a tensor-view (DLTensor) tagged value arriving as a trampoline
argument decodes through c_make_array with the borrowed-view flag set,
while a tensor tagged kTVMNDArrayHandle arriving as a return value
decodes through c_make_array with the owning-wrapper flags; the two
decoded wrappers are distinct. -/
theorem c5_tensor_view_positions (cb : CbArgToReturn) (h : CHandle) :
    cb_decode_arg cb (.v_handle h) kTVMDLTensorHandle = .ok (c_make_array h true false) ∧
    make_ret (.v_handle h) kTVMNDArrayHandle = .ok (c_make_array h false true) ∧
    c_make_array h true false = .pyMadeArray h true false ∧
    c_make_array h false true = .pyMadeArray h false true ∧
    (.pyMadeArray h true false : PyVal) ≠ .pyMadeArray h false true := by
  exact ⟨rfl, by simp, rfl, rfl, by simp⟩

/-- C6: the in-place translate step runs exactly for the type codes
Object, PackedFunction, Module, NDArray, ObjectRefSlot and the
extension range, it runs before the argument is decoded, and the POD
codes together with the tensor-view code skip it (so the decode outcome
does not depend on the translate primitive there). -/
theorem c6_translate_before_decode (cb cb2 : CbArgToReturn) (v : TVMValue) (t : Int) :
    (cb_translate_cond t = true ↔
      (t = kTVMObjectHandle ∨ t = kTVMPackedFuncHandle ∨ t = kTVMModuleHandle ∨
       t = kTVMNDArrayHandle ∨ t = kTVMObjectRefArg ∨ kTVMExtBegin ≤ t)) ∧
    (cb_translate_cond t = true →
      cb_decode_arg cb v t = cb_decode_after (cb v t).1 (cb v t).2) ∧
    (cb_translate_cond t = false →
      cb_decode_arg cb v t = cb_decode_after v t ∧
      cb_decode_arg cb v t = cb_decode_arg cb2 v t) ∧
    cb_translate_cond kInt = false ∧ cb_translate_cond kFloat = false ∧
    cb_translate_cond kTVMArgBool = false ∧ cb_translate_cond kTVMNullptr = false ∧
    cb_translate_cond kDLDevice = false ∧ cb_translate_cond kTVMDLTensorHandle = false := by
  refine ⟨?_, fun h => ?_, fun h => ⟨?_, ?_⟩,
    by decide, by decide, by decide, by decide, by decide, by decide⟩
  · simp [cb_translate_cond, or_assoc]
  · simp [cb_decode_arg, h]
  · simp [cb_decode_arg, h]
  · simp [cb_decode_arg, h]

/-- C6 witness: with the identity translate primitive, an Object-tagged
argument is translated then decoded, and an Int-tagged argument is
decoded directly. -/
theorem c6_translate_before_decode_witness :
    cb_decode_arg (fun v t => (v, t)) (.v_int64 0) kTVMObjectHandle =
      cb_decode_after (.v_int64 0) kTVMObjectHandle ∧
    cb_decode_arg (fun v t => (v, t)) (.v_int64 1) kInt =
      cb_decode_after (.v_int64 1) kInt := by
  have h8 := c6_translate_before_decode (fun v t => (v, t)) (fun v t => (v, t))
    (.v_int64 0) kTVMObjectHandle
  have h0 := c6_translate_before_decode (fun v t => (v, t)) (fun v t => (v, t))
    (.v_int64 1) kInt
  exact ⟨h8.2.1 (by decide), (h0.2.2.1 (by decide)).1⟩

/-- C10 witness: the first out-of-range integer fails to encode and the
call fails before the native primitive, while 5 encodes exactly. -/
theorem c10_int64_encoding_witness :
    make_arg (.pyInt 9223372036854775808) = .error "OverflowError" ∧
    FuncCall (fun _ _ _ _ => (0, .v_int64 0, 0)) 0 [.pyInt 9223372036854775808] =
      .error "OverflowError" ∧
    make_arg (.pyInt 5) = .ok (.v_int64 5, kInt, []) := by
  have h := c10_int64_encoding 9223372036854775808 true
  have h5 := c10_int64_encoding 5 true
  refine ⟨(h.2.2 (by decide)).1, ?_, h5.1 (by decide)⟩
  exact ((h.2.2 (by decide)).2 (fun _ _ _ _ => (0, .v_int64 0, 0))
    (fun _ _ _ _ => (0, .v_int64 0, 0)) 0).1


/-- C4: when the wrapped foreign callable raises during a trampoline
invocation, tvm_callback stores the diagnostic in the thread-visible
last-error slot, returns status -1 and leaves the return slot unset,
and the native call site, observing the nonzero status, re-raises the
stored diagnostic unchanged. -/
theorem c4_callback_error (cb : CbArgToReturn) (f : PyFunc) (args : List (TVMValue × Int))
    (pyargs : List PyVal) (e : String)
    (hdec : args.mapM (fun a => cb_decode_arg cb a.1 a.2) = .ok pyargs)
    (herr : f pyargs = .error e) :
    tvm_callback cb f args = .ok { status := -1, ret_slot := none, err_slot := some e } ∧
    native_reraise { status := -1, ret_slot := none, err_slot := some e } = .error e := by
  constructor
  · unfold tvm_callback
    rw [hdec, except_bind_ok, herr]
    rfl
  · simp [native_reraise]

/-- C4 witness: a callable that raises with the diagnostic boom makes
the trampoline return status -1 with boom in the error slot, and the
native site re-raises boom. -/
theorem c4_callback_error_witness :
    tvm_callback (fun v t => (v, t)) (fun _ => .error "boom") [] =
      .ok { status := -1, ret_slot := none, err_slot := some "boom" } ∧
    native_reraise { status := -1, ret_slot := none, err_slot := some "boom" } =
      .error "boom" :=
  c4_callback_error (fun v t => (v, t)) (fun _ => .error "boom") [] [] "boom" rfl rfl

/-- C7: a tuple produced by the foreign callable is rejected with the
single-return-value error before any return value is encoded, while a
single non-tuple, non-None value is encoded by make_arg and written to
the return slot through the set-return primitive with status 0. -/
theorem c7_single_return (cb : CbArgToReturn) (f : PyFunc) (args : List (TVMValue × Int))
    (pyargs : List PyVal)
    (hdec : args.mapM (fun a => cb_decode_arg cb a.1 a.2) = .ok pyargs) :
    (∀ ch, f pyargs = .ok (.pyContainer true ch) →
      tvm_callback cb f args = .error "PackedFunction can only support one return value") ∧
    (∀ rv value tcode temps, f pyargs = .ok rv → rv ≠ .pyNone →
      isinstance_tuple rv = false → make_arg rv = .ok (value, tcode, temps) →
      tvm_callback cb f args =
        .ok { status := 0, ret_slot := some (value, tcode), err_slot := none }) := by
  constructor
  · intro ch hok
    unfold tvm_callback
    rw [hdec, except_bind_ok, hok]
    simp [isinstance_tuple]
  · intro rv value tcode temps hok hnone htuple henc
    unfold tvm_callback
    rw [hdec, except_bind_ok, hok]
    simp [hnone, htuple, henc]

/-- C7 witness: a callable returning the integer 1 fills the return
slot with the encoded integer and status 0, while a callable returning
a tuple is rejected with the single-return-value error. -/
theorem c7_single_return_witness :
    tvm_callback (fun v t => (v, t)) (fun _ => .ok (.pyInt 1)) [] =
      .ok { status := 0, ret_slot := some (.v_int64 1, kInt), err_slot := none } ∧
    tvm_callback (fun v t => (v, t)) (fun _ => .ok (.pyContainer true 0)) [] =
      .error "PackedFunction can only support one return value" := by
  have h1 := c7_single_return (fun v t => (v, t)) (fun _ => .ok (.pyInt 1)) [] [] rfl
  have h2 := c7_single_return (fun v t => (v, t)) (fun _ => .ok (.pyContainer true 0)) [] [] rfl
  exact ⟨h1.2 (.pyInt 1) (.v_int64 1) kInt [] rfl (by decide) (by decide) (by decide),
    h2.1 0 rfl⟩

/-- C8 counterexample: a constructor returning type code 9 against
expected code 8 aborts with the bare message AssertionError; the
message is the same for the distinct pair of codes (5, 6) and contains
neither digit string, so the abort does not name the two codes. -/
theorem c8_counterexample :
    ConstructorCall (fun _ _ _ _ => (0, .v_handle (.raw 1), 9)) 0 8 [] =
      .error "AssertionError" ∧
    ConstructorCall (fun _ _ _ _ => (0, .v_handle (.raw 1), 6)) 0 5 [] =
      .error "AssertionError" ∧
    occursInStr "8" "AssertionError" = false ∧
    occursInStr "9" "AssertionError" = false := by
  refine ⟨by decide, by decide, by decide, by decide⟩

/-- C8 amended: ConstructorCall performs the call, asserts the
returned type code equals the expected code, and adopts the raw
returned handle on success; a mismatch aborts with a bare assertion
failure whose message does not include the codes. -/
theorem c8_constructor_assert (native : NativeCall) (ch : Nat) (tc : Int)
    (args : List PyVal) (rv : TVMValue) (rt : Int)
    (hcall : FuncCall native ch args = .ok (rv, rt)) :
    (rt ≠ tc → ConstructorCall native ch tc args = .error "AssertionError") ∧
    (∀ h, rt = tc → rv = .v_handle h → ConstructorCall native ch tc args = .ok h) := by
  constructor
  · intro hne
    simp [ConstructorCall, hcall, hne]
  · intro h hrt hrv
    subst hrt
    subst hrv
    simp [ConstructorCall, hcall]

/-- C8 witness: a matching constructor call adopts the returned raw
handle and a mismatching one aborts with the assertion failure. -/
theorem c8_constructor_assert_witness :
    ConstructorCall (fun _ _ _ _ => (0, .v_handle (.raw 7), 8)) 0 8 [] = .ok (.raw 7) ∧
    ConstructorCall (fun _ _ _ _ => (0, .v_handle (.raw 7), 8)) 0 9 [] =
      .error "AssertionError" := by
  have hm := c8_constructor_assert (fun _ _ _ _ => (0, .v_handle (.raw 7), 8)) 0 8 []
    (.v_handle (.raw 7)) 8 (by decide)
  have hx := c8_constructor_assert (fun _ _ _ _ => (0, .v_handle (.raw 7), 8)) 0 9 []
    (.v_handle (.raw 7)) 8 (by decide)
  exact ⟨hm.2 (.raw 7) rfl rfl, hx.1 (by decide)⟩

/-- C9: every wrap has exactly one matching release: converting a
Python callable takes exactly one reference on it and produces a local
(non-global) wrapper, the registered finalizer releases exactly one
reference when the native side frees the handle, the reference events
of a full wrap-then-native-free cycle balance, and destroying a
PackedFuncBase wrapper invokes the free primitive exactly when the
handle is local (is_global equals 0), never for a global handle. -/
theorem c9_wrap_release_balance (pyfunc new_chandle : Nat) (pf : PackedFuncBase) :
    (convert_to_tvm_func pyfunc new_chandle).1 =
      [.py_incref pyfunc, .func_create new_chandle pyfunc] ∧
    ((convert_to_tvm_func pyfunc new_chandle).1.count (.py_incref pyfunc) = 1) ∧
    (convert_to_tvm_func pyfunc new_chandle).2 = make_packed_func new_chandle 0 ∧
    ((convert_to_tvm_func pyfunc new_chandle).2.is_global = 0) ∧
    tvm_callback_finalize pyfunc = [.py_decref pyfunc] ∧
    ((native_free_created pyfunc).count (.py_decref pyfunc) = 1) ∧
    ((convert_to_tvm_func pyfunc new_chandle).1 ++ native_free_created pyfunc).count
        (.py_incref pyfunc) =
      ((convert_to_tvm_func pyfunc new_chandle).1 ++ native_free_created pyfunc).count
        (.py_decref pyfunc) ∧
    (pf.is_global = 0 → PackedFuncBase_dealloc pf = [.func_free pf.chandle]) ∧
    (pf.is_global ≠ 0 → PackedFuncBase_dealloc pf = []) := by
  refine ⟨rfl, ?_, rfl, rfl, rfl, ?_, ?_,
    fun h => by simp [PackedFuncBase_dealloc, h], fun h => by simp [PackedFuncBase_dealloc, h]⟩
  · simp [convert_to_tvm_func, make_packed_func, List.count_cons]
  · simp [native_free_created, tvm_callback_finalize, List.count_cons]
  · simp [convert_to_tvm_func, native_free_created, tvm_callback_finalize,
      make_packed_func, List.count_cons]

/-- C9 witness: the lifetime bookkeeping evaluated on callable 3
wrapped as handle 4, and on a local and a global wrapper. -/
theorem c9_wrap_release_balance_witness :
    (convert_to_tvm_func 3 4).1.count (.py_incref 3) = 1 ∧
    (convert_to_tvm_func 3 4).2.is_global = 0 ∧
    (native_free_created 3).count (.py_decref 3) = 1 ∧
    PackedFuncBase_dealloc { chandle := 4, is_global := 0 } = [.func_free 4] ∧
    PackedFuncBase_dealloc { chandle := 5, is_global := 1 } = [] := by
  have h0 := c9_wrap_release_balance 3 4 { chandle := 4, is_global := 0 }
  have h1 := c9_wrap_release_balance 3 4 { chandle := 5, is_global := 1 }
  exact ⟨h0.2.1, h0.2.2.2.1, h0.2.2.2.2.2.1,
    h0.2.2.2.2.2.2.2.1 (by decide), h1.2.2.2.2.2.2.2.2 (by decide)⟩
